import Mathlib

/-!
Shallow embedding of the renewal decision engine of `letsencrypt/main.py`:
the staging safety guard (`_avoid_invalidating_lineage`), the duplicate
matcher (`_find_duplicative_certs`), the action resolver
(`_treat_as_renewal` and its two interactive handlers), the renewal
executor (`_auth_from_domains`, with external calls recorded as a trace),
and the account resolver (`_determine_account`).

External collaborators (the ACME client, the display, the `should_renew`
policy from the `cli` module, and the `storage.RenewableCert` persistence
layer) are passed in as explicit oracle values; every call the executor
makes to a collaborator that mutates state or reports to the user is
recorded in an explicit `Call` trace.
-/

deriving instance DecidableEq for Except

/-- Python's substring test `needle in hay` restricted to the prefix case:
`isPrefixB n h` is true when `n` is a prefix of `h`. -/
def isPrefixB : List Char → List Char → Bool
  | [], _ => true
  | _ :: _, [] => false
  | a :: as, b :: bs => a == b && isPrefixB as bs

/-- Helper for Python's `in` operator on strings: `isSubListB n h` is true
when `n` occurs contiguously inside `h`. -/
def isSubListB : List Char → List Char → Bool
  | n, [] => isPrefixB n []
  | n, b :: bs => isPrefixB n (b :: bs) || isSubListB n bs

/-- Python's `needle in hay` on strings (contiguous substring test). -/
def strContains (hay needle : String) : Bool :=
  isSubListB needle.data hay.data

/-- Python's `str.lower()` (ASCII-style per-character lowering suffices for
the markers `"staging"` and `"fake"` the engine searches for). -/
def lowerStr (s : String) : String :=
  ⟨s.data.map Char.toLower⟩

/-- Exceptions that the embedded fragment of `main.py` can raise. -/
inductive PyError
  | error (msg : String)          -- letsencrypt.errors.Error
  | missingCommandlineFlag        -- letsencrypt.errors.MissingCommandlineFlag
  | unboundLocal (name : String)  -- Python UnboundLocalError / NameError
  | attributeError (name : String)
  | assertionError
deriving DecidableEq, Repr

/-- The slice of the CLI configuration object (`config`) that the embedded
functions read. -/
structure Config where
  server : String
  break_my_certs : Bool
  dry_run : Bool
  verb : String
  duplicate : Bool
  expand : Bool
  renew_by_default : Bool
  reinstall : Bool
deriving DecidableEq, Repr

/-- A certificate lineage (`storage.RenewableCert`) as the engine observes
it: its covered names, its stable `cert`/`fullchain` paths, the issuer of
the currently installed certificate (the `repr` of the X509 name read from
the file at `lineage.cert`), the `renewalparams.server` entry of its
renewal configuration, and its latest common artifact version. -/
structure Lineage where
  names : List String
  cert : String
  fullchain : String
  issuerRepr : String
  configServer : String
  latest_common_version : Nat
deriving DecidableEq, Repr

/-- Result of `IDisplay.menu`: either the user cancelled, or chose the
option at `index`. -/
structure MenuResponse where
  canceled : Bool
  index : Nat
deriving DecidableEq, Repr

/-- The already-serialized artifacts obtained from the ACME client for a
renewal: the dumped certificate PEM, the private key PEM and the dumped
chain PEM. -/
structure CertData where
  certPem : String
  keyPem : String
  chainPem : String
deriving DecidableEq, Repr

/-- One observable call from the executor to an external collaborator. -/
inductive Call
  | obtainCertificate (domains : List String)
  | saveSuccessor (priorVersion : Nat) (certPem keyPem chainPem : String)
  | updateAllLinksTo (version : Nat)
  | obtainAndEnroll (domains : List String)
  | reportNewCert (path : String) (expiry : Nat)
deriving DecidableEq, Repr

/-- Behaviour of the ACME client collaborator: what
`obtain_certificate` returns (as dumped bytes) and what
`obtain_and_enroll_certificate` returns (`none` models Python `False`). -/
structure ClientOracle where
  obtained : CertData
  enrolled : Option Lineage
deriving DecidableEq, Repr

/-- Modelled from the spec: the known staging constant
`constants.STAGING_URI` of the missing `letsencrypt/constants` module ("a
known staging constant" naming the authority's staging endpoint). -/
def STAGING_URI : String := "https://acme-staging.api.letsencrypt.org/directory"

/-- The nested `_is_staging` helper of `_avoid_invalidating_lineage`:
`srv == constants.STAGING_URI or "staging" in srv`. -/
def _is_staging (srv : String) : Bool :=
  srv == STAGING_URI || strContains srv "staging"

/-- The `now_valid` test of `_avoid_invalidating_lineage`:
`"fake" not in repr(latest_cert.get_issuer()).lower()`. -/
def now_valid (lineage : Lineage) : Bool :=
  !(strContains (lowerStr lineage.issuerRepr) "fake")

/-- The staging safety guard `_avoid_invalidating_lineage(config, lineage,
original_server)`: raises `errors.Error` rather than letting a seemingly
valid certificate be replaced by a test certificate. -/
def _avoid_invalidating_lineage (config : Config) (lineage : Lineage)
    (original_server : String) : Except PyError Unit :=
  if _is_staging config.server then
    if !(_is_staging original_server) || now_valid lineage then
      if !config.break_my_certs then
        .error (.error ("You've asked to renew/replace a seemingly valid certificate with " ++
          "a test certificate (domains: " ++ String.intercalate ", " lineage.names ++
          "). We will not do that unless you use the --break-my-certs flag!"))
      else .ok ()
    else .ok ()
  else .ok ()

/-- One iteration of the loop body of `_find_duplicative_certs` for a
readable candidate lineage, updating the pair
`(identical_names_cert, subset_names_cert)`. -/
def dupStep (domains : List String) (acc : Option Lineage × Option Lineage)
    (cand : Lineage) : Option Lineage × Option Lineage :=
  if cand.names.toFinset = domains.toFinset then (some cand, acc.2)
  else if cand.names.toFinset ⊆ domains.toFinset then
    match acc.2 with
    | none => (acc.1, some cand)
    | some s => if cand.names.toFinset.card > s.names.length then (acc.1, some cand) else acc
  else acc

/-- The loop of `_find_duplicative_certs` over the renewal configuration
files; a `none` entry is a broken renewal conf file, which is logged and
skipped. -/
def findDupAux (domains : List String) :
    List (Option Lineage) → Option Lineage × Option Lineage → Option Lineage × Option Lineage
  | [], acc => acc
  | none :: rest, acc => findDupAux domains rest acc
  | some cand :: rest, acc => findDupAux domains rest (dupStep domains acc cand)

/-- `_find_duplicative_certs(config, domains)`: returns the pair
`(identical_names_cert, subset_names_cert)` over the given enumeration of
stored lineages. -/
def _find_duplicative_certs (domains : List String) (files : List (Option Lineage)) :
    Option Lineage × Option Lineage :=
  findDupAux domains files (none, none)

/-- The classification that drives `_treat_as_renewal`'s dispatch on the
pair returned by `_find_duplicative_certs` (lines 245-251 of `main.py`):
identical match, else subset match, else no match. -/
inductive MatchResult
  | identical (l : Lineage)
  | subsetMatch (l : Lineage)
  | noMatch
deriving DecidableEq, Repr

/-- The match step of `_treat_as_renewal`: which single lineage (if any)
drives the resolved action. -/
def matchClassify (domains : List String) (files : List (Option Lineage)) : MatchResult :=
  match _find_duplicative_certs domains files with
  | (none, none) => .noMatch
  | (some c, _) => .identical c
  | (none, some c) => .subsetMatch c

/-- `_handle_subset_cert_request(config, domains, cert)`: expand-and-replace
when `--expand`/`--renew-by-default` is set or the user agrees, else an
`errors.Error` cancellation. `userYes` is the answer of the
`IDisplay.yesno` collaborator. -/
def _handle_subset_cert_request (config : Config) (userYes : Bool) (cert : Lineage) :
    Except PyError (String × Option Lineage) :=
  if config.expand || config.renew_by_default || userYes then .ok ("renew", some cert)
  else .error (.error "User chose to cancel the operation and may reinvoke the client.")

/-- `_handle_identical_cert_request(config, cert)`. `shouldRenewVal` is the
value of the external `should_renew(config, cert)` policy (from the `cli`
module); `response` is the `IDisplay.menu` answer. If the verb is neither
`"run"` nor `"certonly"`, the Python local `keep_opt` is never assigned
and building the `choices` list raises `UnboundLocalError` before any menu
is shown, modelled by the `unboundLocal` error. -/
def _handle_identical_cert_request (config : Config) (shouldRenewVal : Bool)
    (response : MenuResponse) (cert : Lineage) : Except PyError (String × Option Lineage) :=
  if shouldRenewVal then .ok ("renew", some cert)
  else if config.reinstall then .ok ("reinstall", some cert)
  else
    let keep_opt : Option String :=
      if config.verb == "run" then some "Attempt to reinstall this existing certificate"
      else if config.verb == "certonly" then some "Keep the existing certificate for now"
      else none
    match keep_opt with
    | none => .error (.unboundLocal "keep_opt")
    | some _ =>
      if response.canceled then
        .error (.error "User chose to cancel the operation and may reinvoke the client.")
      else if response.index == 0 then .ok ("reinstall", some cert)
      else if response.index == 1 then .ok ("renew", some cert)
      else .error .assertionError

/-- `_treat_as_renewal(config, domains)`: resolve the requested domains
against the stored lineages into an action token (`"reinstall"`,
`"renew"`, or `"newcert"`) and the lineage it applies to. -/
def _treat_as_renewal (config : Config) (domains : List String)
    (files : List (Option Lineage)) (shouldRenew : Lineage → Bool)
    (identResponse : MenuResponse) (subsetYes : Bool) :
    Except PyError (String × Option Lineage) :=
  if config.duplicate then .ok ("newcert", none)
  else
    match _find_duplicative_certs domains files with
    | (none, none) => .ok ("newcert", none)
    | (some c, _) => _handle_identical_cert_request config (shouldRenew c) identResponse c
    | (none, some c) => _handle_subset_cert_request config subsetYes c

/-- Modelled from the spec: `storage.RenewableCert.save_successor` of the
missing `letsencrypt/storage` module. It writes the artifacts of version
`latestCommonVersion + 1` for all four kinds and returns that version
number, so the lineage's `latest_common_version()` afterwards equals the
returned number. -/
def saveSuccessorModel (l : Lineage) : Lineage × Nat :=
  ({ l with latest_common_version := l.latest_common_version + 1 },
   l.latest_common_version + 1)

/-- `_report_new_cert(cert_path, fullchain_path)`: the reporter message,
carrying the full chain path when one exists (non-empty) and the cert path
otherwise, together with the certificate's expiry read from `cert_path`
(`notAfter` is the external `crypto_util.notAfter` collaborator). -/
def _report_new_cert (notAfter : String → Nat) (cert_path fullchain_path : String) : Call :=
  .reportNewCert (if fullchain_path == "" then cert_path else fullchain_path)
    (notAfter cert_path)

/-- `_auth_from_domains(le_client, config, domains, lineage)`: resolve the
action (an explicit lineage forces `"renew"`), run the staging guard, call
the ACME client, persist the successor version unless this is a dry run,
and report the new certificate unless this is a dry run or the verb is
`"renew"`. The result pairs the Python return value with the trace of
collaborator calls made. -/
def _auth_from_domains (oracle : ClientOracle) (notAfter : String → Nat) (config : Config)
    (domains : List String) (lineage0 : Option Lineage) (files : List (Option Lineage))
    (shouldRenew : Lineage → Bool) (identResponse : MenuResponse) (subsetYes : Bool) :
    Except PyError (Option Lineage × String) × List Call :=
  let resolved : Except PyError (String × Option Lineage) :=
    match lineage0 with
    | some _ => .ok ("renew", lineage0)
    | none => _treat_as_renewal config domains files shouldRenew identResponse subsetYes
  match resolved with
  | .error e => (.error e, [])
  | .ok (action, matched) =>
    if action == "reinstall" then
      (.ok (matched, "reinstall"), [])
    else
      let step : Except PyError (Option Lineage) × List Call :=
        if action == "renew" then
          match matched with
          | none => (.error (.attributeError "configuration"), [])
          | some l =>
            match _avoid_invalidating_lineage config l l.configServer with
            | .error e => (.error e, [])
            | .ok _ =>
              if config.dry_run then (.ok (some l), [.obtainCertificate domains])
              else
                (.ok (some (saveSuccessorModel l).1),
                 [.obtainCertificate domains,
                  .saveSuccessor l.latest_common_version oracle.obtained.certPem
                    oracle.obtained.keyPem oracle.obtained.chainPem,
                  .updateAllLinksTo (saveSuccessorModel l).1.latest_common_version])
        else if action == "newcert" then
          match oracle.enrolled with
          | none => (.error (.error "Certificate could not be obtained"), [.obtainAndEnroll domains])
          | some l => (.ok (some l), [.obtainAndEnroll domains])
        else (.ok matched, [])
      match step with
      | (.error e, t) => (.error e, t)
      | (.ok linFinal, t) =>
        if !config.dry_run && !(config.verb == "renew") then
          match linFinal with
          | some l => (.ok (some l, action), t ++ [_report_new_cert notAfter l.cert l.fullchain])
          | none => (.error (.attributeError "cert"), t)
        else (.ok (linFinal, action), t)

/-- True for the two lineage-store persistence calls (`save_successor` and
`update_all_links_to`). -/
def isPersistenceCall : Call → Bool
  | .saveSuccessor _ _ _ _ => true
  | .updateAllLinksTo _ => true
  | _ => false

/-- True for the new-certificate-available report event. -/
def isReportCall : Call → Bool
  | .reportNewCert _ _ => true
  | _ => false

/-- An account stored by the account storage collaborator. -/
structure Account where
  id : String
deriving DecidableEq, Repr

/-- `_determine_account(config)`. `load` is the account storage `load`
collaborator, `storedAccounts` the result of `find_all()`, `chooseAccount`
the `display_ops.choose_account` collaborator, and `registerResult` the
outcome of `client.register` (the email prompt and terms-of-service
callback are folded into this oracle, since they only feed registration).
The second component of the result is true when a fresh ACME client was
produced as a biproduct of new registration. -/
def _determine_account (configAccount : Option String)
    (load : String → Except PyError Account) (storedAccounts : List Account)
    (chooseAccount : List Account → Account)
    (registerResult : Except PyError (Account × Bool)) : Except PyError (Account × Bool) :=
  match configAccount with
  | some aid => (load aid).map (fun a => (a, false))
  | none =>
    match storedAccounts with
    | [] =>
      match registerResult with
      | .ok x => .ok x
      | .error .missingCommandlineFlag => .error .missingCommandlineFlag
      | .error (.error _) => .error (.error "Unable to register an account with ACME server")
      | .error e => .error e
    | [a] => .ok (a, false)
    | accounts => .ok (chooseAccount accounts, false)

/-- Sample production-issued lineage used to instantiate the theorems. -/
def sampleProdLin : Lineage :=
  ⟨["a.com"], "cp", "fp", "CN=Real CA", "https://prod.example/dir", 3⟩

/-- Sample configuration pointing at the staging endpoint. -/
def sampleStagCfg : Config :=
  ⟨"https://acme-staging.api.letsencrypt.org/directory", false, false, "certonly",
   false, false, false, false⟩

theorem isPrefixB_iff (n h : List Char) : isPrefixB n h = true ↔ n <+: h := by
  induction n generalizing h with
  | nil => simp [isPrefixB, List.nil_prefix]
  | cons a as ih =>
    cases h with
    | nil =>
      rw [show isPrefixB (a :: as) [] = false from rfl]
      simp [List.prefix_nil]
    | cons b bs =>
      rw [show isPrefixB (a :: as) (b :: bs) = (a == b && isPrefixB as bs) from rfl]
      simp [ih, List.cons_prefix_cons]

theorem isSubListB_iff (n h : List Char) : isSubListB n h = true ↔ n <:+: h := by
  induction h with
  | nil => simp [isSubListB, isPrefixB_iff, List.infix_nil, List.prefix_nil]
  | cons b bs ih => simp [isSubListB, isPrefixB_iff, ih, List.infix_cons_iff]

theorem strContains_iff (hay needle : String) :
    strContains hay needle = true ↔ needle.data <:+: hay.data := by
  simp [strContains, isSubListB_iff]

set_option maxRecDepth 8000 in
/-- C1: the staging safety guard raises a blocking error if and only if the
target server is staging, and the lineage's original server was not
staging or the installed certificate is not a test certificate (no
fake-CA marker in the issuer), and `break_my_certs` is unset. In
particular a staging target with a production original and no override
fails for every certificate, the override always allows, and a
non-staging target always allows. -/
theorem staging_guard_characterization (config : Config) (lineage : Lineage)
    (original_server : String) :
    ((∃ e, _avoid_invalidating_lineage config lineage original_server = .error e) ↔
      (_is_staging config.server = true ∧
        (_is_staging original_server = false ∨ now_valid lineage = true) ∧
        config.break_my_certs = false))
    ∧ (_is_staging config.server = true → _is_staging original_server = false →
        config.break_my_certs = false →
        ∃ e, _avoid_invalidating_lineage config lineage original_server = .error e)
    ∧ (config.break_my_certs = true →
        _avoid_invalidating_lineage config lineage original_server = .ok ())
    ∧ (_is_staging config.server = false →
        _avoid_invalidating_lineage config lineage original_server = .ok ()) := by
  unfold _avoid_invalidating_lineage
  cases h1 : _is_staging config.server <;>
    cases h2 : _is_staging original_server <;>
      cases h3 : now_valid lineage <;>
        cases h4 : config.break_my_certs <;>
          simp [h1, h2, h3, h4]

/-- C1 witness: with a staging target, a production original server and no
override flag, the guard fails on a concrete production certificate. -/
theorem staging_guard_characterization_witness :
    ∃ e, _avoid_invalidating_lineage sampleStagCfg sampleProdLin "https://prod.example/dir" =
      .error e :=
  (staging_guard_characterization sampleStagCfg sampleProdLin "https://prod.example/dir").2.1
    (by decide) (by decide) (by decide)

/-- C2 counterexample: the claim's case-insensitive reading of the staging
classification is false: a URI containing only the uppercase substring
`"STAGING"` is not classified as staging by `_is_staging`, although it is
neither the staging constant nor free of the case-insensitive marker. -/
theorem is_staging_case_insensitive_counterexample :
    ¬ (_is_staging "https://STAGING.example.com" = true ↔
        ("https://STAGING.example.com" = STAGING_URI ∨
          strContains (lowerStr "https://STAGING.example.com") "staging" = true)) := by
  decide

/-- C2 amended: the staging classification holds if and only if the URI
equals the known staging constant or contains the substring `"staging"`
matched case-sensitively (so a URI containing only `"STAGING"` is not
classified as staging). -/
theorem is_staging_characterization (srv : String) :
    _is_staging srv = true ↔ (srv = STAGING_URI ∨ "staging".data <:+: srv.data) := by
  simp [_is_staging, strContains_iff, Bool.or_eq_true, beq_iff_eq]

/-- C9: with no stored accounts, a missing-required-flag registration
failure propagates unchanged, every other registration `errors.Error` is
re-raised as the "Unable to register an account" domain error, no
registration error is silently swallowed, and a successful registration is
passed through. -/
theorem register_error_propagation (load : String → Except PyError Account)
    (chooseAccount : List Account → Account)
    (registerResult : Except PyError (Account × Bool)) :
    (registerResult = .error .missingCommandlineFlag →
      _determine_account none load [] chooseAccount registerResult =
        .error .missingCommandlineFlag)
    ∧ (∀ msg, registerResult = .error (.error msg) →
        _determine_account none load [] chooseAccount registerResult =
          .error (.error "Unable to register an account with ACME server"))
    ∧ (∀ e, registerResult = .error e →
        ∃ e', _determine_account none load [] chooseAccount registerResult = .error e')
    ∧ (∀ x, registerResult = .ok x →
        _determine_account none load [] chooseAccount registerResult = .ok x) := by
  refine ⟨?_, ?_, ?_, ?_⟩ <;> intro h
  · subst h; rfl
  · intro hmsg; subst hmsg; rfl
  · intro he; subst he
    cases h with
    | error msg => exact ⟨_, rfl⟩
    | missingCommandlineFlag => exact ⟨_, rfl⟩
    | unboundLocal n => exact ⟨_, rfl⟩
    | attributeError n => exact ⟨_, rfl⟩
    | assertionError => exact ⟨_, rfl⟩
  · intro hx; subst hx; rfl

/-- C9 witness: concrete instances of the wrapped and unwrapped cases. -/
theorem register_error_propagation_witness :
    _determine_account none (fun _ => .error (.error "no such account")) []
      (fun _ => ⟨"acc"⟩) (.error .missingCommandlineFlag) =
      .error .missingCommandlineFlag :=
  (register_error_propagation (fun _ => .error (.error "no such account"))
    (fun _ => ⟨"acc"⟩) (.error .missingCommandlineFlag)).1 rfl

/-- C10: when renewal is not due and the reinstall flag is unset, the
identical-match handler reaches the prompt branch; for a verb that is
neither "run" nor "certonly" the `keep_opt` local is never assigned and
the handler fails with an unbound-variable error before any menu is
shown, while for "run" or "certonly" no such error can occur. -/
theorem identical_prompt_verb_cases (config : Config) (cert : Lineage)
    (shouldRenewVal : Bool) (response : MenuResponse) :
    (shouldRenewVal = false → config.reinstall = false → config.verb ≠ "run" →
      config.verb ≠ "certonly" →
      _handle_identical_cert_request config shouldRenewVal response cert =
        .error (.unboundLocal "keep_opt"))
    ∧ ((config.verb = "run" ∨ config.verb = "certonly") →
        ∀ n, _handle_identical_cert_request config shouldRenewVal response cert ≠
          .error (.unboundLocal n)) := by
  constructor
  · intro h1 h2 h3 h4
    simp [_handle_identical_cert_request, h1, h2, h3, h4]
  · intro hverb n
    unfold _handle_identical_cert_request
    rcases hverb with h | h <;> rw [h] <;>
      cases shouldRenewVal <;> cases hr : config.reinstall <;>
        cases hc : response.canceled <;> simp [hr, hc] <;>
          rcases hi : response.index with _ | _ | i <;> simp [hi]

/-- C10 witness: the "auth" verb reaching the prompt branch fails with the
unbound-variable error. -/
theorem identical_prompt_verb_cases_witness :
    _handle_identical_cert_request
      ⟨"https://prod.example/dir", false, false, "auth", false, false, false, false⟩
      false ⟨false, 0⟩ sampleProdLin = .error (.unboundLocal "keep_opt") :=
  (identical_prompt_verb_cases
    ⟨"https://prod.example/dir", false, false, "auth", false, false, false, false⟩
    sampleProdLin false ⟨false, 0⟩).1 rfl rfl (by decide) (by decide)

/-- Sample lineage covering a strict subset of the two-domain requests
below. -/
def sampleSubLin : Lineage :=
  ⟨["a.com"], "c1", "f1", "CN=Real CA", "https://prod.example/dir", 1⟩

/-- Sample lineage covering exactly the names `a.com` and `b.com`. -/
def sampleIdentLin : Lineage :=
  ⟨["b.com", "a.com"], "c2", "f2", "CN=Real CA", "https://prod.example/dir", 1⟩

/-- Sample configuration pointing at a production endpoint, with every
policy flag unset. -/
def sampleProdCfg : Config :=
  ⟨"https://prod.example/dir", false, false, "run", false, false, false, false⟩

theorem dupStep_fst_names (domains : List String) (acc : Option Lineage × Option Lineage)
    (cand : Lineage)
    (h : ∀ c, acc.1 = some c → c.names.toFinset = domains.toFinset) :
    ∀ c, (dupStep domains acc cand).1 = some c → c.names.toFinset = domains.toFinset := by
  intro c hc
  unfold dupStep at hc
  split at hc
  · next h1 =>
    simp at hc
    exact hc ▸ h1
  · split at hc
    · split at hc
      · exact h c hc
      · split at hc
        · exact h c hc
        · exact h c hc
    · exact h c hc

theorem dupStep_fst_eq_or (domains : List String) (acc : Option Lineage × Option Lineage)
    (cand : Lineage) :
    (dupStep domains acc cand).1 = acc.1 ∨ (dupStep domains acc cand).1 = some cand := by
  unfold dupStep
  split
  · right; rfl
  · split
    · split
      · left; rfl
      · split
        · left; rfl
        · left; rfl
    · left; rfl

theorem findDupAux_fst_isSome (domains : List String) (files : List (Option Lineage))
    (acc : Option Lineage × Option Lineage) (h : acc.1.isSome) :
    ((findDupAux domains files acc).1).isSome := by
  induction files generalizing acc with
  | nil => simpa [findDupAux] using h
  | cons f rest ih =>
    cases f with
    | none => exact ih acc h
    | some cand =>
      refine ih (dupStep domains acc cand) ?_
      rcases dupStep_fst_eq_or domains acc cand with he | he <;> rw [he]
      · exact h
      · rfl

theorem findDupAux_fst_witness (domains : List String) (files : List (Option Lineage))
    (acc : Option Lineage × Option Lineage)
    (h : ∃ l, some l ∈ files ∧ l.names.toFinset = domains.toFinset) :
    ((findDupAux domains files acc).1).isSome := by
  induction files generalizing acc with
  | nil => rcases h with ⟨l, hl, _⟩; simp at hl
  | cons f rest ih =>
    rcases h with ⟨l, hl, hn⟩
    rcases List.mem_cons.mp hl with he | hm
    · rw [← he]
      show ((findDupAux domains rest (dupStep domains acc l)).1).isSome
      apply findDupAux_fst_isSome
      unfold dupStep
      rw [if_pos hn]
      rfl
    · cases f with
      | none => exact ih acc ⟨l, hm, hn⟩
      | some cand => exact ih (dupStep domains acc cand) ⟨l, hm, hn⟩

theorem findDupAux_fst_names (domains : List String) (files : List (Option Lineage))
    (acc : Option Lineage × Option Lineage)
    (h : ∀ c, acc.1 = some c → c.names.toFinset = domains.toFinset) :
    ∀ c, (findDupAux domains files acc).1 = some c → c.names.toFinset = domains.toFinset := by
  induction files generalizing acc with
  | nil => simpa [findDupAux] using h
  | cons f rest ih =>
    cases f with
    | none => exact ih acc h
    | some cand => exact ih (dupStep domains acc cand) (dupStep_fst_names domains acc cand h)

/-- C3: whenever some readable lineage's name set equals the requested
domain set, the match step classifies the request as identical with a
lineage whose names equal the request, never as a subset match and never
as no match — so at most the identical branch drives the resolved
action. -/
theorem identical_match_priority (domains : List String) (files : List (Option Lineage))
    (h : ∃ l, some l ∈ files ∧ l.names.toFinset = domains.toFinset) :
    (∃ l', matchClassify domains files = .identical l' ∧ l'.names.toFinset = domains.toFinset)
    ∧ (∀ c, matchClassify domains files ≠ .subsetMatch c)
    ∧ matchClassify domains files ≠ .noMatch := by
  have hsome : ((_find_duplicative_certs domains files).1).isSome :=
    findDupAux_fst_witness domains files (none, none) h
  rcases hc : (_find_duplicative_certs domains files).1 with _ | c
  · rw [hc] at hsome; simp at hsome
  · have hnames :=
      findDupAux_fst_names domains files (none, none) (fun c h' => nomatch h') c hc
    have hcl : matchClassify domains files = .identical c := by
      unfold matchClassify
      rcases hfd : _find_duplicative_certs domains files with ⟨fst, snd⟩
      rw [hfd] at hc
      simp at hc
      subst hc
      cases snd <;> rfl
    rw [hcl]
    exact ⟨⟨c, rfl, hnames⟩, fun c' => by simp, by simp⟩

/-- C3 witness: with one proper-subset lineage and one lineage exactly
covering the requested pair of domains, the classification is identical
(with the exact-match lineage) and not subset. -/
theorem identical_match_priority_witness :
    (∃ l', matchClassify ["a.com", "b.com"] [some sampleSubLin, some sampleIdentLin] =
        .identical l'
      ∧ l'.names.toFinset = (["a.com", "b.com"] : List String).toFinset)
    ∧ (∀ c, matchClassify ["a.com", "b.com"] [some sampleSubLin, some sampleIdentLin] ≠
        .subsetMatch c)
    ∧ matchClassify ["a.com", "b.com"] [some sampleSubLin, some sampleIdentLin] ≠ .noMatch :=
  identical_match_priority ["a.com", "b.com"] [some sampleSubLin, some sampleIdentLin]
    ⟨sampleIdentLin, by decide, by decide⟩

/-- C4: with no identical match present, of two subset lineages enumerated
in order the strictly larger one wins, and on equal sizes the
first-encountered one wins. -/
theorem largest_subset_wins (l1 l2 : Lineage) (domains : List String)
    (h1 : l1.names.Nodup)
    (hs1 : l1.names.toFinset ⊆ domains.toFinset) (hs2 : l2.names.toFinset ⊆ domains.toFinset)
    (hne1 : l1.names.toFinset ≠ domains.toFinset) (hne2 : l2.names.toFinset ≠ domains.toFinset) :
    (l1.names.toFinset.card < l2.names.toFinset.card →
      _find_duplicative_certs domains [some l1, some l2] = (none, some l2))
    ∧ (l2.names.toFinset.card = l1.names.toFinset.card →
      _find_duplicative_certs domains [some l1, some l2] = (none, some l1)) := by
  have hcard : l1.names.toFinset.card = l1.names.length := List.toFinset_card_of_nodup h1
  have hstep1 : dupStep domains (none, none) l1 = (none, some l1) := by
    unfold dupStep
    rw [if_neg hne1, if_pos hs1]
  have hred : _find_duplicative_certs domains [some l1, some l2] =
      dupStep domains (none, some l1) l2 := by
    show findDupAux domains [some l2] (dupStep domains (none, none) l1) =
      dupStep domains (none, some l1) l2
    rw [hstep1]
    rfl
  constructor
  · intro hlt
    rw [hred]
    unfold dupStep
    rw [if_neg hne2, if_pos hs2]
    dsimp only
    have hgt : l2.names.toFinset.card > l1.names.length := by omega
    rw [if_pos hgt]
  · intro heq
    rw [hred]
    unfold dupStep
    rw [if_neg hne2, if_pos hs2]
    dsimp only
    have hngt : ¬ l2.names.toFinset.card > l1.names.length := by omega
    rw [if_neg hngt]

/-- C4 witness: a one-name subset lineage followed by a two-name subset
lineage under a three-name request resolves to the two-name lineage. -/
theorem largest_subset_wins_witness :
    _find_duplicative_certs ["a.com", "b.com", "c.com"] [some sampleSubLin, some sampleIdentLin] =
      (none, some sampleIdentLin) :=
  (largest_subset_wins sampleSubLin sampleIdentLin ["a.com", "b.com", "c.com"]
    (by decide) (by decide) (by decide) (by decide) (by decide)).1 (by decide)

/-- C5: a request whose domain set is a strict subset of an existing
lineage's name set (hence equal to no lineage's name set) is classified as
no match — the subset direction tested is existing-contained-in-requested —
and the resolver yields the newcert action with no lineage. -/
theorem strict_subset_request_newcert (config : Config) (l : Lineage) (domains : List String)
    (shouldRenew : Lineage → Bool) (identResponse : MenuResponse) (subsetYes : Bool)
    (hdup : config.duplicate = false)
    (hstrict : domains.toFinset ⊂ l.names.toFinset) :
    _find_duplicative_certs domains [some l] = (none, none)
    ∧ matchClassify domains [some l] = .noMatch
    ∧ _treat_as_renewal config domains [some l] shouldRenew identResponse subsetYes =
        .ok ("newcert", none) := by
  have hnsub : ¬ l.names.toFinset ⊆ domains.toFinset := (Finset.ssubset_def.mp hstrict).2
  have hne : l.names.toFinset ≠ domains.toFinset := by
    intro he
    exact hnsub (he ▸ Finset.Subset.refl _)
  have hfind : _find_duplicative_certs domains [some l] = (none, none) := by
    show findDupAux domains [] (dupStep domains (none, none) l) = (none, none)
    unfold dupStep
    rw [if_neg hne, if_neg hnsub]
    rfl
  refine ⟨hfind, ?_, ?_⟩
  · unfold matchClassify
    rw [hfind]
  · unfold _treat_as_renewal
    rw [hfind]
    simp [hdup]

/-- C5 witness: requesting `a.com` against a lineage covering `a.com` and
`b.com` resolves to a new certificate. -/
theorem strict_subset_request_newcert_witness :
    _find_duplicative_certs ["a.com"] [some sampleIdentLin] = (none, none)
    ∧ matchClassify ["a.com"] [some sampleIdentLin] = .noMatch
    ∧ _treat_as_renewal sampleProdCfg ["a.com"] [some sampleIdentLin] (fun _ => false)
        ⟨false, 0⟩ false = .ok ("newcert", none) :=
  strict_subset_request_newcert sampleProdCfg sampleIdentLin ["a.com"] (fun _ => false)
    ⟨false, 0⟩ false rfl (by decide)

/-- Sample ACME client behaviour used to instantiate the executor
theorems. -/
def sampleOracle : ClientOracle := ⟨⟨"CPEM", "KPEM", "CHPEM"⟩, some sampleSubLin⟩

/-- Sample configuration with the dry-run flag set. -/
def sampleDryCfg : Config :=
  ⟨"https://prod.example/dir", false, true, "certonly", false, false, false, false⟩

/-- C6: a renew-action execution with the dry-run flag set makes zero
persistence calls (no `save_successor`, no `update_all_links_to`) on every
path, and when the staging guard allows it still calls the protocol client
for the domains and still returns the resolved renew action with the
unchanged lineage. -/
theorem dry_run_renew_frame (oracle : ClientOracle) (notAfter : String → Nat) (config : Config)
    (domains : List String) (l : Lineage) (files : List (Option Lineage))
    (shouldRenew : Lineage → Bool) (identResponse : MenuResponse) (subsetYes : Bool)
    (hdry : config.dry_run = true) :
    ((_auth_from_domains oracle notAfter config domains (some l) files shouldRenew
        identResponse subsetYes).2.filter isPersistenceCall = [])
    ∧ (_avoid_invalidating_lineage config l l.configServer = .ok () →
        Call.obtainCertificate domains ∈
          (_auth_from_domains oracle notAfter config domains (some l) files shouldRenew
            identResponse subsetYes).2
        ∧ (_auth_from_domains oracle notAfter config domains (some l) files shouldRenew
            identResponse subsetYes).1 = .ok (some l, "renew")) := by
  cases hg : _avoid_invalidating_lineage config l l.configServer with
  | error e =>
    refine ⟨by simp [_auth_from_domains, hg, hdry], fun h => ?_⟩
    exact absurd h (by simp)
  | ok u =>
    cases u
    refine ⟨?_, fun _ => ⟨?_, ?_⟩⟩ <;>
      simp [_auth_from_domains, hg, hdry, isPersistenceCall]

/-- C6 witness: a concrete dry-run renew leaves no persistence calls in
the trace, contacts the client, and returns the renew action with the
lineage unchanged. -/
theorem dry_run_renew_frame_witness :
    ((_auth_from_domains sampleOracle (fun _ => 7) sampleDryCfg ["a.com"] (some sampleProdLin) []
        (fun _ => false) ⟨false, 0⟩ false).2.filter isPersistenceCall = [])
    ∧ Call.obtainCertificate ["a.com"] ∈
        (_auth_from_domains sampleOracle (fun _ => 7) sampleDryCfg ["a.com"]
          (some sampleProdLin) [] (fun _ => false) ⟨false, 0⟩ false).2
    ∧ (_auth_from_domains sampleOracle (fun _ => 7) sampleDryCfg ["a.com"] (some sampleProdLin)
        [] (fun _ => false) ⟨false, 0⟩ false).1 = .ok (some sampleProdLin, "renew") :=
  ⟨(dry_run_renew_frame sampleOracle (fun _ => 7) sampleDryCfg ["a.com"] sampleProdLin []
      (fun _ => false) ⟨false, 0⟩ false rfl).1,
   (dry_run_renew_frame sampleOracle (fun _ => 7) sampleDryCfg ["a.com"] sampleProdLin []
      (fun _ => false) ⟨false, 0⟩ false rfl).2 (by decide)⟩

/-- C7: a successful non-dry-run renew makes exactly two persistence
calls, in order: `save_successor` with the lineage's latest common version
and the new certificate, key and chain bytes, then `update_all_links_to`
with exactly the version number `save_successor` returns. -/
theorem renew_save_successor_then_update (oracle : ClientOracle) (notAfter : String → Nat)
    (config : Config) (domains : List String) (l : Lineage) (files : List (Option Lineage))
    (shouldRenew : Lineage → Bool) (identResponse : MenuResponse) (subsetYes : Bool)
    (hdry : config.dry_run = false)
    (hguard : _avoid_invalidating_lineage config l l.configServer = .ok ()) :
    (_auth_from_domains oracle notAfter config domains (some l) files shouldRenew
        identResponse subsetYes).2.filter isPersistenceCall =
      [Call.saveSuccessor l.latest_common_version oracle.obtained.certPem
         oracle.obtained.keyPem oracle.obtained.chainPem,
       Call.updateAllLinksTo (saveSuccessorModel l).2] := by
  by_cases hv : (config.verb == "renew") = true <;>
    simp [_auth_from_domains, hguard, hdry, hv, isPersistenceCall, _report_new_cert,
      saveSuccessorModel]

/-- C7 witness: a concrete non-dry-run renew persists the successor of
version 3 and repoints the links to the version `save_successor`
returned. -/
theorem renew_save_successor_then_update_witness :
    (_auth_from_domains sampleOracle (fun _ => 7) sampleProdCfg ["a.com"] (some sampleProdLin)
        [] (fun _ => false) ⟨false, 0⟩ false).2.filter isPersistenceCall =
      [Call.saveSuccessor sampleProdLin.latest_common_version sampleOracle.obtained.certPem
         sampleOracle.obtained.keyPem sampleOracle.obtained.chainPem,
       Call.updateAllLinksTo (saveSuccessorModel sampleProdLin).2] :=
  renew_save_successor_then_update sampleOracle (fun _ => 7) sampleProdCfg ["a.com"]
    sampleProdLin [] (fun _ => false) ⟨false, 0⟩ false rfl (by decide)

/-- C8 counterexample: a successful, non-dry-run renew executed under the
`"renew"` verb signals no new-certificate-available event at all, contrary
to the claim that every successful non-dry-run renew signals one. -/
theorem report_event_renew_verb_counterexample :
    (_auth_from_domains sampleOracle (fun _ => 7)
        ⟨"https://prod.example/dir", false, false, "renew", false, false, false, false⟩
        ["a.com"] (some sampleProdLin) [] (fun _ => false) ⟨false, 0⟩ false).1 =
      .ok (some { sampleProdLin with latest_common_version := 4 }, "renew")
    ∧ (_auth_from_domains sampleOracle (fun _ => 7)
        ⟨"https://prod.example/dir", false, false, "renew", false, false, false, false⟩
        ["a.com"] (some sampleProdLin) [] (fun _ => false) ⟨false, 0⟩ false).2.filter
        isReportCall = [] := by
  decide

/-- C8 amended: after a successful non-dry-run renew or newcert whose
invocation verb is not `"renew"`, exactly one new-certificate-available
event is signalled, carrying the full chain path when one exists and the
certificate path otherwise together with the certificate's expiry; after a
reinstall no event is signalled; and under the `"renew"` verb no event is
signalled either. -/
theorem report_event_cases (oracle : ClientOracle) (notAfter : String → Nat) (config : Config)
    (domains : List String) (l le li : Lineage) (files : List (Option Lineage))
    (shouldRenew : Lineage → Bool) (identResponse : MenuResponse) (subsetYes : Bool) :
    (config.dry_run = false → config.verb ≠ "renew" →
      _avoid_invalidating_lineage config l l.configServer = .ok () →
      (_auth_from_domains oracle notAfter config domains (some l) files shouldRenew
          identResponse subsetYes).2.filter isReportCall =
        [Call.reportNewCert (if l.fullchain == "" then l.cert else l.fullchain)
          (notAfter l.cert)])
    ∧ (config.dry_run = false → config.verb ≠ "renew" → config.duplicate = true →
        oracle.enrolled = some le →
        (_auth_from_domains oracle notAfter config domains none files shouldRenew
            identResponse subsetYes).2.filter isReportCall =
          [Call.reportNewCert (if le.fullchain == "" then le.cert else le.fullchain)
            (notAfter le.cert)])
    ∧ (li.names.toFinset = domains.toFinset → shouldRenew li = false →
        config.reinstall = true → config.duplicate = false →
        _auth_from_domains oracle notAfter config domains none [some li] shouldRenew
          identResponse subsetYes = (.ok (some li, "reinstall"), []))
    ∧ (config.verb = "renew" →
        (_auth_from_domains oracle notAfter config domains (some l) files shouldRenew
            identResponse subsetYes).2.filter isReportCall = []) := by
  refine ⟨?_, ?_, ?_, ?_⟩
  · intro hdry hverb hg
    have hv : (config.verb == "renew") = false := by simp [hverb]
    simp [_auth_from_domains, hg, hdry, hv, isReportCall, _report_new_cert, saveSuccessorModel]
  · intro hdry hverb hdup henr
    have hv : (config.verb == "renew") = false := by simp [hverb]
    simp [_auth_from_domains, _treat_as_renewal, hdup, henr, hdry, hv, isReportCall,
      _report_new_cert]
  · intro hli hsr hrei hdup
    have hfind : _find_duplicative_certs domains [some li] = (some li, none) := by
      show findDupAux domains [] (dupStep domains (none, none) li) = (some li, none)
      unfold dupStep
      rw [if_pos hli]
      rfl
    simp [_auth_from_domains, _treat_as_renewal, hdup, hfind,
      _handle_identical_cert_request, hsr, hrei]
  · intro hv
    cases hg : _avoid_invalidating_lineage config l l.configServer with
    | error e => simp [_auth_from_domains, hg]
    | ok u =>
      cases u
      cases hdry : config.dry_run <;>
        simp [_auth_from_domains, hg, hv, hdry, isReportCall]

/-- C8 amended witness: a concrete non-dry-run renew under the `"run"`
verb signals exactly one report event carrying the full chain path and the
expiry. -/
theorem report_event_cases_witness :
    (_auth_from_domains sampleOracle (fun _ => 7) sampleProdCfg ["a.com"] (some sampleProdLin)
        [] (fun _ => false) ⟨false, 0⟩ false).2.filter isReportCall =
      [Call.reportNewCert (if sampleProdLin.fullchain == "" then sampleProdLin.cert
          else sampleProdLin.fullchain) 7] :=
  (report_event_cases sampleOracle (fun _ => 7) sampleProdCfg ["a.com"] sampleProdLin
    sampleSubLin sampleIdentLin [] (fun _ => false) ⟨false, 0⟩ false).1 rfl (by decide)
    (by decide)
